import Mathlib

/-!
# Naming layer of the PostgreSQL operator

A shallow embedding of `internal/naming/names.go`: the functions that map a
cluster (or an instance) to the namespace and name of the Kubernetes objects
that belong to it, followed by theorems about them.

Go strings are embedded as Lean strings and Go's `+` on strings as `++`.
-/

namespace naming

/-! ## Data model -/

/-- The Kubernetes `metav1.ObjectMeta` type. Its declaration lives in the
Kubernetes API machinery; the fields kept here are the two the naming layer
reads and writes plus a few of the others, all with Go's zero value as the
default, so that a literal with only `Namespace` and `Name` means what it
means in Go. -/
structure ObjectMeta where
  Name : String := ""
  GenerateName : String := ""
  Namespace : String := ""
  UID : String := ""
  ResourceVersion : String := ""
  Generation : Int := 0
  Labels : List (String × String) := []
  Annotations : List (String × String) := []
  deriving DecidableEq, Repr

/-- The controller-runtime `client.ObjectKey` type (a namespaced name). -/
structure ObjectKey where
  Namespace : String := ""
  Name : String := ""
  deriving DecidableEq, Repr

/-- The `v1alpha1.PostgresInstanceSetSpec` type: the name of an instance set
and, of its other fields, the replica count. -/
structure PostgresInstanceSetSpec where
  Name : String := ""
  Replicas : Option Int := none
  deriving DecidableEq, Repr

/-- The `v1alpha1.PostgresClusterSpec` type, reduced to its instance sets. -/
structure PostgresClusterSpec where
  InstanceSets : List PostgresInstanceSetSpec := []
  deriving DecidableEq, Repr

/-- The `v1alpha1.PostgresCluster` type. As in Go it embeds `ObjectMeta`, so
`cluster.Name` and `cluster.Namespace` are the fields of the embedded
metadata. -/
structure PostgresCluster extends ObjectMeta where
  Spec : PostgresClusterSpec := {}
  deriving DecidableEq, Repr

/-- The `metav1.Object` interface, reduced to the two accessors the naming
layer calls. -/
class Object (α : Type) where
  GetNamespace : α → String
  GetName : α → String

/-- `ObjectMeta` implements `metav1.Object` by returning its own fields. -/
instance : Object ObjectMeta where
  GetNamespace := fun m => m.Namespace
  GetName := fun m => m.Name

/-- A `PostgresCluster` implements `metav1.Object` through its embedded
metadata. -/
instance : Object PostgresCluster where
  GetNamespace := fun c => c.Namespace
  GetName := fun c => c.Name

/-! ## The random source -/

/-- Modelled from the spec: the process-wide random source behind
`rand.String` of `k8s.io/apimachinery/pkg/util/rand`, which is not part of
this repository. It is an endless stream of draws; reading it consumes
them. -/
structure RandSource where
  draws : Nat → Nat

/-- Modelled from the spec: the alphabet of the disambiguator token,
"lowercase alphanumeric" with about `36^4` four-character tokens. -/
def alphanums : List Char := "abcdefghijklmnopqrstuvwxyz0123456789".data

/-- Modelled from the spec: one character of a token, chosen by a draw. -/
def randChar (draw : Nat) : Char := alphanums.getD (draw % 36) 'a'

/-- Modelled from the spec: `rand.String(n)`, a freshly drawn token of `n`
lowercase alphanumeric characters. It returns the token and the source
advanced past the `n` draws it used. -/
def randString (src : RandSource) (n : Nat) : String × RandSource :=
  (String.mk ((List.range n).map fun i => randChar (src.draws i)),
   { draws := fun i => src.draws (i + n) })

/-! ## The derivations of `names.go` -/

/-- AsObjectKey converts the ObjectMeta API type to a client.ObjectKey. -/
def AsObjectKey (m : ObjectMeta) : ObjectKey :=
  { Namespace := m.Namespace, Name := m.Name }

/-- ClusterConfigMap returns the ObjectMeta necessary to lookup cluster's
shared ConfigMap. -/
def ClusterConfigMap (cluster : PostgresCluster) : ObjectMeta :=
  { Namespace := cluster.Namespace, Name := cluster.Name ++ "-config" }

/-- ClusterPodService returns the ObjectMeta necessary to lookup the Service
that is responsible for the network identity of Pods. -/
def ClusterPodService (cluster : PostgresCluster) : ObjectMeta :=
  { Namespace := cluster.Namespace, Name := cluster.Name ++ "-pods" }

/-- ClusterPrimaryService returns the ObjectMeta necessary to lookup the
Service that exposes the PostgreSQL primary instance. -/
def ClusterPrimaryService (cluster : PostgresCluster) : ObjectMeta :=
  { Namespace := cluster.Namespace, Name := cluster.Name ++ "-primary" }

/-- GenerateInstance returns a random name for a member of cluster and set.
The random source is passed in and handed back advanced. -/
def GenerateInstance (src : RandSource) (cluster : PostgresCluster)
    (set : PostgresInstanceSetSpec) : ObjectMeta × RandSource :=
  ({ Namespace := cluster.Namespace,
     Name := cluster.Name ++ "-" ++ set.Name ++ "-" ++ (randString src 4).1 },
   (randString src 4).2)

/-- InstanceConfigMap returns the ObjectMeta necessary to lookup instance's
shared ConfigMap. -/
def InstanceConfigMap {α : Type} [Object α] (inst : α) : ObjectMeta :=
  { Namespace := Object.GetNamespace inst, Name := Object.GetName inst ++ "-config" }

/-- InstanceCertificates returns the ObjectMeta necessary to lookup the Secret
containing instance's certificates. -/
def InstanceCertificates {α : Type} [Object α] (inst : α) : ObjectMeta :=
  { Namespace := Object.GetNamespace inst, Name := Object.GetName inst ++ "-certs" }

/-- PatroniScope returns the "scope" Patroni uses for cluster. -/
def PatroniScope (cluster : PostgresCluster) : String :=
  cluster.Name ++ "-ha"

/-- PatroniDistributedConfiguration returns the ObjectMeta necessary to lookup
the DCS created by Patroni for cluster. -/
def PatroniDistributedConfiguration (cluster : PostgresCluster) : ObjectMeta :=
  { Namespace := cluster.Namespace, Name := PatroniScope cluster ++ "-config" }

/-- PatroniLeaderConfigMap returns the ObjectMeta necessary to lookup the
ConfigMap created by Patroni for the leader election of cluster. -/
def PatroniLeaderConfigMap (cluster : PostgresCluster) : ObjectMeta :=
  { Namespace := cluster.Namespace, Name := PatroniScope cluster ++ "-leader" }

/-- PatroniLeaderEndpoints returns the ObjectMeta necessary to lookup the
Endpoints created by Patroni for the leader election of cluster. -/
def PatroniLeaderEndpoints (cluster : PostgresCluster) : ObjectMeta :=
  { Namespace := cluster.Namespace, Name := PatroniScope cluster }

/-- PatroniTrigger returns the ObjectMeta necessary to lookup the ConfigMap or
Endpoints Patroni creates for cluster to initiate a controlled change of the
leader. -/
def PatroniTrigger (cluster : PostgresCluster) : ObjectMeta :=
  { Namespace := cluster.Namespace, Name := PatroniScope cluster ++ "-failover" }

/-! ## Vocabulary of the properties -/

/-- The cluster of the literal cases: namespace `pgo`, name `hippo`. -/
def hippo : PostgresCluster := { Namespace := "pgo", Name := "hippo" }

/-- A second cluster of the same namespace, named like the Patroni scope of
`hippo`. -/
def hippoHA : PostgresCluster := { Namespace := "pgo", Name := "hippo-ha" }

/-- A third cluster of the same namespace. -/
def rhino : PostgresCluster := { Namespace := "pgo", Name := "rhino" }

/-- A cluster whose name has 52 characters, itself within the 63 characters of
a label. -/
def longCluster : PostgresCluster :=
  { Namespace := "pgo", Name := "aaaaaaaaaaaaaaaaaaaaaaaaaaaaaaaaaaaaaaaaaaaaaaaaaaaa" }

/-- An instance set named `instance1`. -/
def instance1 : PostgresInstanceSetSpec := { Name := "instance1" }

/-- A random source whose draws are 3, 10, 17, 24, ... -/
def sampleSource : RandSource := { draws := fun i => 7 * i + 3 }

/-- The seven deterministic locators derived from a cluster. -/
def clusterLocators (c : PostgresCluster) : List ObjectMeta :=
  [ClusterConfigMap c, ClusterPodService c, ClusterPrimaryService c,
   PatroniDistributedConfiguration c, PatroniLeaderConfigMap c,
   PatroniLeaderEndpoints c, PatroniTrigger c]

/-- The four locators of the objects Patroni keeps for a cluster. -/
def patroniLocators (c : PostgresCluster) : List ObjectMeta :=
  [PatroniDistributedConfiguration c, PatroniLeaderConfigMap c,
   PatroniLeaderEndpoints c, PatroniTrigger c]

/-- What each of the seven deterministic derivations appends to the cluster
name, in the order of `clusterLocators`. -/
def clusterSuffixes : List String :=
  ["-config", "-pods", "-primary", "-ha-config", "-ha-leader", "-ha", "-ha-failover"]

/-- What each of the four Patroni derivations appends to the cluster name, in
the order of `patroniLocators`. -/
def patroniSuffixes : List String :=
  ["-ha-config", "-ha-leader", "-ha", "-ha-failover"]

/-- The platform's maximum label length. -/
def maxLabelLength : Nat := 63

/-- A character allowed in a derived name: a lowercase ASCII letter, a digit or
a hyphen. -/
def isLabelChar (ch : Char) : Bool := ch.isLower || ch.isDigit || ch == '-'

/-- A string made only of lowercase ASCII letters, digits and hyphens. -/
def dnsSafe (s : String) : Bool := s.data.all isLabelChar

/-- The cluster `hippo` again, with labels, a generation and an instance set:
the same identity as `hippo` and other fields that differ. -/
def hippoLabelled : PostgresCluster :=
  { Namespace := "pgo", Name := "hippo", Labels := [("app", "db")], Generation := 3,
    Spec := { InstanceSets := [instance1] } }

/-- The metadata of an instance `hippo-instance1-dkry` of namespace `pgo`,
with a UID and a label. -/
def sampleInstance : ObjectMeta :=
  { Namespace := "pgo", Name := "hippo-instance1-dkry", UID := "1234",
    Labels := [("role", "replica")] }

/-- A cluster with the namespace and name of `sampleInstance`: another type
behind the `metav1.Object` accessors. -/
def sampleInstanceCluster : PostgresCluster :=
  { Namespace := "pgo", Name := "hippo-instance1-dkry" }

/-- A second random source, whose draws are 0, 1, 2, 3, ... -/
def otherSource : RandSource := { draws := fun i => i }

/-! ## Theorems -/

/-- C1: for every cluster the Patroni scope is the cluster name followed by
`-ha`, the distributed configuration is located at the scope followed by
`-config` and the trigger at the scope followed by `-failover`, both in the
cluster's namespace; for the cluster `hippo` in `pgo` these are `hippo-ha`,
`{pgo, hippo-ha-config}` and `{pgo, hippo-ha-failover}`. -/
theorem patroni_scope_config_trigger :
    (∀ c : PostgresCluster,
      PatroniScope c = c.Name ++ "-ha" ∧
      PatroniDistributedConfiguration c
        = { Namespace := c.Namespace, Name := PatroniScope c ++ "-config" } ∧
      PatroniTrigger c
        = { Namespace := c.Namespace, Name := PatroniScope c ++ "-failover" }) ∧
    PatroniScope hippo = "hippo-ha" ∧
    PatroniDistributedConfiguration hippo
      = { Namespace := "pgo", Name := "hippo-ha-config" } ∧
    PatroniTrigger hippo = { Namespace := "pgo", Name := "hippo-ha-failover" } := by
  refine ⟨fun c => ⟨rfl, rfl, rfl⟩, ?_, ?_, ?_⟩ <;> decide

/-- C2: for every cluster the leader-election ConfigMap is located in the
cluster's namespace at the scope followed by `-leader`, that is at the cluster
name followed by `-ha-leader`. -/
theorem patroni_leader_configmap (c : PostgresCluster) :
    PatroniLeaderConfigMap c
      = { Namespace := c.Namespace, Name := PatroniScope c ++ "-leader" } ∧
    (PatroniLeaderConfigMap c).Name = c.Name ++ "-ha-leader" ∧
    (PatroniLeaderConfigMap c).Namespace = c.Namespace := by
  refine ⟨rfl, ?_, rfl⟩
  show c.Name ++ "-ha" ++ "-leader" = c.Name ++ "-ha-leader"
  rw [String.append_assoc]
  rfl

/-- C3: for every cluster the leader Endpoints object is named by the bare
scope, with no further suffix, in the cluster's namespace; for the cluster
`hippo` in `pgo` it is `{pgo, hippo-ha}`. -/
theorem patroni_leader_endpoints :
    (∀ c : PostgresCluster,
      PatroniLeaderEndpoints c
        = { Namespace := c.Namespace, Name := PatroniScope c }) ∧
    PatroniLeaderEndpoints hippo = { Namespace := "pgo", Name := "hippo-ha" } := by
  refine ⟨fun c => rfl, ?_⟩
  decide

/-- C4: for every cluster the shared ConfigMap, the pod Service and the primary
Service are located in the cluster's namespace at the cluster name followed by
`-config`, `-pods` and `-primary`; for the cluster `hippo` in `pgo` these are
`{pgo, hippo-config}`, `{pgo, hippo-pods}` and `{pgo, hippo-primary}`. -/
theorem cluster_locators :
    (∀ c : PostgresCluster,
      ClusterConfigMap c = { Namespace := c.Namespace, Name := c.Name ++ "-config" } ∧
      ClusterPodService c = { Namespace := c.Namespace, Name := c.Name ++ "-pods" } ∧
      ClusterPrimaryService c
        = { Namespace := c.Namespace, Name := c.Name ++ "-primary" }) ∧
    ClusterConfigMap hippo = { Namespace := "pgo", Name := "hippo-config" } ∧
    ClusterPodService hippo = { Namespace := "pgo", Name := "hippo-pods" } ∧
    ClusterPrimaryService hippo = { Namespace := "pgo", Name := "hippo-primary" } := by
  refine ⟨fun c => ⟨rfl, rfl, rfl⟩, ?_, ?_, ?_⟩ <;> decide

/-- Every character of the token alphabet is a lowercase letter or a digit. -/
theorem alphanums_lower_or_digit :
    ∀ ch ∈ alphanums, ch.isLower = true ∨ ch.isDigit = true := by
  decide

/-- A drawn character belongs to the token alphabet. -/
theorem randChar_mem (draw : Nat) : randChar draw ∈ alphanums := by
  have hlen : alphanums.length = 36 := by decide
  have hlt : draw % 36 < alphanums.length := by
    rw [hlen]
    exact Nat.mod_lt _ (by decide)
  unfold randChar
  rw [List.getD_eq_getElem _ _ hlt]
  exact List.getElem_mem hlt

/-- A token of `n` characters has `n` characters. -/
theorem randString_length (src : RandSource) (n : Nat) :
    (randString src n).1.length = n := by
  simp [randString]

/-- Every character of a token is a lowercase letter or a digit. -/
theorem randString_chars (src : RandSource) (n : Nat) :
    ∀ ch ∈ (randString src n).1.data, ch.isLower = true ∨ ch.isDigit = true := by
  intro ch hch
  simp only [randString, List.mem_map] at hch
  obtain ⟨i, _, rfl⟩ := hch
  exact alphanums_lower_or_digit _ (randChar_mem _)

/-- C5: for every cluster, instance set and state of the random source,
`GenerateInstance` returns the locator in the cluster's namespace whose name is
the cluster name, the set name and the drawn token joined by hyphens; the token
has exactly four characters, each a lowercase letter or a digit. The function
is total: it has no error result. -/
theorem generate_instance_shape (src : RandSource) (c : PostgresCluster)
    (s : PostgresInstanceSetSpec) :
    (GenerateInstance src c s).1
      = { Namespace := c.Namespace,
          Name := c.Name ++ "-" ++ s.Name ++ "-" ++ (randString src 4).1 } ∧
    (randString src 4).1.length = 4 ∧
    ∀ ch ∈ (randString src 4).1.data, ch.isLower = true ∨ ch.isDigit = true :=
  ⟨rfl, randString_length src 4, randString_chars src 4⟩

/-- C6: for every instance object the instance ConfigMap and the certificate
Secret are located in the instance's namespace at the instance's name followed
by `-config` and `-certs`. -/
theorem instance_locators {α : Type} [Object α] (m : α) :
    InstanceConfigMap m
      = { Namespace := Object.GetNamespace m, Name := Object.GetName m ++ "-config" } ∧
    InstanceCertificates m
      = { Namespace := Object.GetNamespace m, Name := Object.GetName m ++ "-certs" } :=
  ⟨rfl, rfl⟩

/-! ### Names that share an ending -/

/-- A list that ends in `s` splits at the length of `s`. -/
theorem front_of_append {u s t : List Char} (h : t = u ++ s) :
    t.drop (t.length - s.length) = s ∧ t.take (t.length - s.length) = u := by
  subst h
  simp

set_option maxRecDepth 100000 in
/-- Among the seven suffixes, one ends in another only when they are equal or
when the longer is `-ha` followed by the shorter. -/
theorem clusterSuffixes_overlap :
    ∀ s ∈ clusterSuffixes, ∀ t ∈ clusterSuffixes,
      t.data.drop (t.data.length - s.data.length) = s.data →
        t.data.take (t.data.length - s.data.length) = [] ∨
        t.data.take (t.data.length - s.data.length) = "-ha".data := by
  decide

set_option maxRecDepth 100000 in
/-- Among the four Patroni suffixes, one ends in another only when they are
equal. -/
theorem patroniSuffixes_overlap :
    ∀ s ∈ patroniSuffixes, ∀ t ∈ patroniSuffixes,
      t.data.drop (t.data.length - s.data.length) = s.data →
        t.data.take (t.data.length - s.data.length) = [] := by
  decide

/-- Two names extended by two of the seven suffixes coincide only when the
names are equal or one is the other followed by `-ha`. -/
theorem clusterSuffixes_collision {x y s t : String}
    (hs : s ∈ clusterSuffixes) (ht : t ∈ clusterSuffixes) (h : x ++ s = y ++ t) :
    x = y ∨ x = y ++ "-ha" ∨ y = x ++ "-ha" := by
  have hd : x.data ++ s.data = y.data ++ t.data := by
    simpa using congrArg String.data h
  rcases List.append_eq_append_iff.mp hd with ⟨u, hy, hu⟩ | ⟨u, hx, hu⟩
  · obtain ⟨hdrop, htake⟩ := front_of_append hu
    rcases clusterSuffixes_overlap t ht s hs hdrop with h0 | h1
    · left
      apply String.ext
      rw [hy, ← htake, h0, List.append_nil]
    · right; right
      apply String.ext
      rw [String.data_append, hy, ← htake, h1]
  · obtain ⟨hdrop, htake⟩ := front_of_append hu
    rcases clusterSuffixes_overlap s hs t ht hdrop with h0 | h1
    · left
      apply String.ext
      rw [hx, ← htake, h0, List.append_nil]
    · right; left
      apply String.ext
      rw [String.data_append, hx, ← htake, h1]

/-- Two names extended by two of the four Patroni suffixes coincide only when
the names are equal. -/
theorem patroniSuffixes_collision {x y s t : String}
    (hs : s ∈ patroniSuffixes) (ht : t ∈ patroniSuffixes) (h : x ++ s = y ++ t) :
    x = y := by
  have hd : x.data ++ s.data = y.data ++ t.data := by
    simpa using congrArg String.data h
  rcases List.append_eq_append_iff.mp hd with ⟨u, hy, hu⟩ | ⟨u, hx, hu⟩
  · obtain ⟨hdrop, htake⟩ := front_of_append hu
    have h0 := patroniSuffixes_overlap t ht s hs hdrop
    apply String.ext
    rw [hy, ← htake, h0, List.append_nil]
  · obtain ⟨hdrop, htake⟩ := front_of_append hu
    have h0 := patroniSuffixes_overlap s hs t ht hdrop
    apply String.ext
    rw [hx, ← htake, h0, List.append_nil]

/-- Each of the seven deterministic locators is named by the cluster name
followed by one of the seven suffixes. -/
theorem clusterLocators_name {c : PostgresCluster} {l : ObjectMeta}
    (hl : l ∈ clusterLocators c) : ∃ s ∈ clusterSuffixes, l.Name = c.Name ++ s := by
  simp only [clusterLocators, List.mem_cons, List.mem_singleton, List.not_mem_nil,
    or_false] at hl
  rcases hl with rfl | rfl | rfl | rfl | rfl | rfl | rfl
  · exact ⟨"-config", by decide, rfl⟩
  · exact ⟨"-pods", by decide, rfl⟩
  · exact ⟨"-primary", by decide, rfl⟩
  · exact ⟨"-ha-config", by decide, String.append_assoc _ _ _⟩
  · exact ⟨"-ha-leader", by decide, String.append_assoc _ _ _⟩
  · exact ⟨"-ha", by decide, rfl⟩
  · exact ⟨"-ha-failover", by decide, String.append_assoc _ _ _⟩

/-- Each of the four Patroni locators is named by the cluster name followed by
one of the four Patroni suffixes. -/
theorem patroniLocators_name {c : PostgresCluster} {l : ObjectMeta}
    (hl : l ∈ patroniLocators c) : ∃ s ∈ patroniSuffixes, l.Name = c.Name ++ s := by
  simp only [patroniLocators, List.mem_cons, List.mem_singleton, List.not_mem_nil,
    or_false] at hl
  rcases hl with rfl | rfl | rfl | rfl
  · exact ⟨"-ha-config", by decide, String.append_assoc _ _ _⟩
  · exact ⟨"-ha-leader", by decide, String.append_assoc _ _ _⟩
  · exact ⟨"-ha", by decide, rfl⟩
  · exact ⟨"-ha-failover", by decide, String.append_assoc _ _ _⟩

/-- C7, as stated, fails: the clusters `hippo` and `hippo-ha` of namespace
`pgo` have different names, yet the Patroni distributed configuration of the
first and the shared ConfigMap of the second are both `{pgo, hippo-ha-config}`. -/
theorem cluster_locators_collide :
    hippo.Namespace = hippoHA.Namespace ∧ hippo.Name ≠ hippoHA.Name ∧
    PatroniDistributedConfiguration hippo ∈ clusterLocators hippo ∧
    ClusterConfigMap hippoHA ∈ clusterLocators hippoHA ∧
    PatroniDistributedConfiguration hippo
      = { Namespace := "pgo", Name := "hippo-ha-config" } ∧
    ClusterConfigMap hippoHA = { Namespace := "pgo", Name := "hippo-ha-config" } ∧
    PatroniDistributedConfiguration hippo = ClusterConfigMap hippoHA := by
  decide

/-- C7, amended: for two clusters of one namespace whose names differ and
neither of whose names is the Patroni scope of the other (the other's name
followed by `-ha`), every one of the seven deterministic locators of the first
differs from every one of the seven of the second. -/
theorem cluster_locators_disjoint (c1 c2 : PostgresCluster)
    (_hns : c1.Namespace = c2.Namespace) (hne : c1.Name ≠ c2.Name)
    (h12 : c2.Name ≠ PatroniScope c1) (h21 : c1.Name ≠ PatroniScope c2) :
    ∀ l1 ∈ clusterLocators c1, ∀ l2 ∈ clusterLocators c2, l1 ≠ l2 := by
  intro l1 hl1 l2 hl2 heq
  obtain ⟨s, hs, h1⟩ := clusterLocators_name hl1
  obtain ⟨t, ht, h2⟩ := clusterLocators_name hl2
  have h : c1.Name ++ s = c2.Name ++ t := by rw [← h1, ← h2, heq]
  rcases clusterSuffixes_collision hs ht h with h | h | h
  · exact hne h
  · exact h21 h
  · exact h12 h

/-- The amended C7 at the clusters `hippo` and `rhino` of namespace `pgo`. -/
theorem cluster_locators_disjoint_witness :
    hippo.Namespace = rhino.Namespace ∧ hippo.Name ≠ rhino.Name ∧
    rhino.Name ≠ PatroniScope hippo ∧ hippo.Name ≠ PatroniScope rhino ∧
    ∀ l1 ∈ clusterLocators hippo, ∀ l2 ∈ clusterLocators rhino, l1 ≠ l2 :=
  ⟨by decide, by decide, by decide, by decide,
   cluster_locators_disjoint hippo rhino (by decide) (by decide) (by decide) (by decide)⟩

/-- C8: for two clusters of one namespace whose names differ, none of the four
Patroni locators of the first (distributed configuration, leader ConfigMap,
leader Endpoints, trigger) equals any of the four of the second. -/
theorem patroni_locators_disjoint (c1 c2 : PostgresCluster)
    (_hns : c1.Namespace = c2.Namespace) (hne : c1.Name ≠ c2.Name) :
    ∀ l1 ∈ patroniLocators c1, ∀ l2 ∈ patroniLocators c2, l1 ≠ l2 := by
  intro l1 hl1 l2 hl2 heq
  obtain ⟨s, hs, h1⟩ := patroniLocators_name hl1
  obtain ⟨t, ht, h2⟩ := patroniLocators_name hl2
  have h : c1.Name ++ s = c2.Name ++ t := by rw [← h1, ← h2, heq]
  exact hne (patroniSuffixes_collision hs ht h)

/-- C8 at the clusters `hippo` and `hippo-ha` of namespace `pgo`. -/
theorem patroni_locators_disjoint_witness :
    hippo.Namespace = hippoHA.Namespace ∧ hippo.Name ≠ hippoHA.Name ∧
    ∀ l1 ∈ patroniLocators hippo, ∀ l2 ∈ patroniLocators hippoHA, l1 ≠ l2 :=
  ⟨by decide, by decide, patroni_locators_disjoint hippo hippoHA (by decide) (by decide)⟩


/-! ### Lengths -/

/-- The length of each of the seven deterministic names is that of the cluster
name plus that of its suffix, which is at most 12 and is 12 for the trigger. -/
theorem clusterSuffixes_length : ∀ s ∈ clusterSuffixes, s.length ≤ 12 := by
  decide

/-- The trigger's name is the cluster name and twelve characters more. -/
theorem patroniTrigger_length (c : PostgresCluster) :
    (PatroniTrigger c).Name.length = c.Name.length + 12 := by
  show (c.Name ++ "-ha" ++ "-failover").length = c.Name.length + 12
  rw [String.length_append, String.length_append]
  rfl

/-- The generated name is the cluster name, the set name and six characters
more: two hyphens and the token of four. -/
theorem generateInstance_length (src : RandSource) (c : PostgresCluster)
    (s : PostgresInstanceSetSpec) :
    (GenerateInstance src c s).1.Name.length = c.Name.length + s.Name.length + 6 := by
  show (c.Name ++ "-" ++ s.Name ++ "-" ++ (randString src 4).1).length = _
  rw [String.length_append, String.length_append, String.length_append,
    String.length_append, randString_length]
  show c.Name.length + 1 + s.Name.length + 1 + 4 = _
  omega

/-- C9, as stated, fails: the cluster `longCluster` has a name of 52
characters, within the limit of 63, yet `PatroniTrigger` returns for it a name
of 64 characters and `GenerateInstance` one of 67, each as a plain locator:
the result type has no place for a signal. -/
theorem derived_name_over_limit :
    longCluster.Name.length = 52 ∧ longCluster.Name.length ≤ maxLabelLength ∧
    PatroniTrigger longCluster
      = { Namespace := "pgo",
          Name := "aaaaaaaaaaaaaaaaaaaaaaaaaaaaaaaaaaaaaaaaaaaaaaaaaaaa-ha-failover" } ∧
    (PatroniTrigger longCluster).Name.length = 64 ∧
    maxLabelLength < (PatroniTrigger longCluster).Name.length ∧
    (GenerateInstance sampleSource longCluster instance1).1
      = { Namespace := "pgo",
          Name := "aaaaaaaaaaaaaaaaaaaaaaaaaaaaaaaaaaaaaaaaaaaaaaaaaaaa-instance1-dkry" } ∧
    maxLabelLength < (GenerateInstance sampleSource longCluster instance1).1.Name.length := by
  decide

/-- C9, amended: the seven deterministic names of a cluster are all at most 63
characters long exactly when the cluster name has at most 51 characters, and
the name `GenerateInstance` returns is at most 63 characters long exactly when
the cluster name and the set name have at most 57 characters together; beyond
that the longer name is returned as it is. -/
theorem derived_names_within_limit (src : RandSource) (c : PostgresCluster)
    (s : PostgresInstanceSetSpec) :
    ((∀ l ∈ clusterLocators c, l.Name.length ≤ maxLabelLength) ↔ c.Name.length ≤ 51) ∧
    ((GenerateInstance src c s).1.Name.length ≤ maxLabelLength
      ↔ c.Name.length + s.Name.length ≤ 57) := by
  constructor
  · constructor
    · intro h
      have h1 := h (PatroniTrigger c) (by simp [clusterLocators])
      rw [patroniTrigger_length] at h1
      unfold maxLabelLength at h1
      omega
    · intro h l hl
      obtain ⟨t, ht, hn⟩ := clusterLocators_name hl
      have h2 := clusterSuffixes_length t ht
      rw [hn, String.length_append]
      unfold maxLabelLength
      omega
  · rw [generateInstance_length]
    unfold maxLabelLength
    omega


/-! ### Characters -/

/-- Appending keeps a string within the label characters exactly when both
parts are. -/
theorem dnsSafe_append (a b : String) :
    dnsSafe (a ++ b) = (dnsSafe a && dnsSafe b) := by
  simp [dnsSafe, List.all_append]

/-- A string within the label characters contains no dot. -/
theorem dnsSafe_no_dot {s : String} (h : dnsSafe s = true) : '.' ∉ s.data := by
  intro hmem
  have hall : ∀ ch ∈ s.data, isLabelChar ch = true := by
    simpa [dnsSafe, List.all_eq_true] using h
  exact absurd (hall _ hmem) (by decide)

/-- Each of the seven suffixes is within the label characters. -/
theorem clusterSuffixes_dnsSafe : ∀ s ∈ clusterSuffixes, dnsSafe s = true := by
  decide

/-- A token is within the label characters. -/
theorem randString_dnsSafe (src : RandSource) (n : Nat) :
    dnsSafe (randString src n).1 = true := by
  simp only [dnsSafe, List.all_eq_true]
  intro ch hch
  rcases randString_chars src n ch hch with h | h <;> simp [isLabelChar, h]

/-- C10: when the cluster name is made only of lowercase ASCII letters, digits
and hyphens, so are the seven deterministic names and the Patroni scope, and
none contains a dot; the same holds of the names of `InstanceConfigMap` and
`InstanceCertificates` when the instance name is of that form, and of the name
`GenerateInstance` returns when the cluster name, the set name and the token
are of that form. -/
theorem derived_names_dns_safe {α : Type} [Object α] (c : PostgresCluster) (m : α)
    (src : RandSource) (s : PostgresInstanceSetSpec) :
    (dnsSafe c.Name = true →
      (∀ l ∈ clusterLocators c, dnsSafe l.Name = true ∧ '.' ∉ l.Name.data) ∧
      dnsSafe (PatroniScope c) = true ∧ '.' ∉ (PatroniScope c).data) ∧
    (dnsSafe (Object.GetName m) = true →
      (dnsSafe (InstanceConfigMap m).Name = true ∧ '.' ∉ (InstanceConfigMap m).Name.data) ∧
      (dnsSafe (InstanceCertificates m).Name = true ∧
        '.' ∉ (InstanceCertificates m).Name.data)) ∧
    (dnsSafe c.Name = true → dnsSafe s.Name = true →
      dnsSafe (randString src 4).1 = true →
      dnsSafe (GenerateInstance src c s).1.Name = true ∧
      '.' ∉ (GenerateInstance src c s).1.Name.data) := by
  have key : ∀ x : String, dnsSafe x = true → dnsSafe x = true ∧ '.' ∉ x.data :=
    fun x hx => ⟨hx, dnsSafe_no_dot hx⟩
  refine ⟨fun hc => ⟨?_, ?_⟩, fun hm => ⟨?_, ?_⟩, fun hc hs ht => ?_⟩
  · intro l hl
    obtain ⟨t, ht, hn⟩ := clusterLocators_name hl
    rw [hn]
    apply key
    rw [dnsSafe_append, hc, clusterSuffixes_dnsSafe t ht]
    rfl
  · apply key
    show dnsSafe (c.Name ++ "-ha") = true
    rw [dnsSafe_append, hc]
    decide
  · apply key
    show dnsSafe (Object.GetName m ++ "-config") = true
    rw [dnsSafe_append, hm]
    decide
  · apply key
    show dnsSafe (Object.GetName m ++ "-certs") = true
    rw [dnsSafe_append, hm]
    decide
  · apply key
    show dnsSafe (c.Name ++ "-" ++ s.Name ++ "-" ++ (randString src 4).1) = true
    rw [dnsSafe_append, dnsSafe_append, dnsSafe_append, dnsSafe_append, hc, hs, ht]
    decide

/-- C10 at the cluster `hippo`, the instance set `instance1` and the instance
generated for them from `sampleSource`. -/
theorem derived_names_dns_safe_witness :
    dnsSafe hippo.Name = true ∧
    dnsSafe (Object.GetName (GenerateInstance sampleSource hippo instance1).1) = true ∧
    dnsSafe instance1.Name = true ∧ dnsSafe (randString sampleSource 4).1 = true ∧
    ((∀ l ∈ clusterLocators hippo, dnsSafe l.Name = true ∧ '.' ∉ l.Name.data) ∧
      dnsSafe (PatroniScope hippo) = true ∧ '.' ∉ (PatroniScope hippo).data) ∧
    dnsSafe (InstanceConfigMap (GenerateInstance sampleSource hippo instance1).1).Name
      = true ∧
    dnsSafe (GenerateInstance sampleSource hippo instance1).1.Name = true :=
  have h := derived_names_dns_safe hippo (GenerateInstance sampleSource hippo instance1).1
    sampleSource instance1
  ⟨by decide, by decide, by decide, by decide, h.1 (by decide),
   (h.2.1 (by decide)).1.1, (h.2.2 (by decide) (by decide) (by decide)).1⟩

/-! ### Namespace and identity -/

/-- C11: every derived locator keeps the namespace of its input. For a cluster
the namespace of each of the seven deterministic locators and of the generated
instance is the cluster's; for an instance the namespace of its ConfigMap and
of its certificates is the instance's; hence the ConfigMap of a generated
instance lies in the cluster's namespace. -/
theorem namespace_preserved {α : Type} [Object α] (src : RandSource)
    (c : PostgresCluster) (s : PostgresInstanceSetSpec) (m : α) :
    (ClusterConfigMap c).Namespace = c.Namespace ∧
    (ClusterPodService c).Namespace = c.Namespace ∧
    (ClusterPrimaryService c).Namespace = c.Namespace ∧
    (GenerateInstance src c s).1.Namespace = c.Namespace ∧
    (PatroniDistributedConfiguration c).Namespace = c.Namespace ∧
    (PatroniLeaderConfigMap c).Namespace = c.Namespace ∧
    (PatroniLeaderEndpoints c).Namespace = c.Namespace ∧
    (PatroniTrigger c).Namespace = c.Namespace ∧
    (InstanceConfigMap m).Namespace = Object.GetNamespace m ∧
    (InstanceCertificates m).Namespace = Object.GetNamespace m ∧
    (InstanceConfigMap (GenerateInstance src c s).1).Namespace = c.Namespace ∧
    (InstanceCertificates (GenerateInstance src c s).1).Namespace = c.Namespace :=
  ⟨rfl, rfl, rfl, rfl, rfl, rfl, rfl, rfl, rfl, rfl, rfl, rfl⟩

/-- C12: the deterministic derivations read only the namespace and the name of
their input. Two clusters with equal namespace and equal name, whatever their
other fields, get equal results from the three cluster derivations, the
Patroni scope and the four Patroni derivations; two instances with equal
namespace and name, of whatever types, get equal results from
`InstanceConfigMap` and `InstanceCertificates`. In particular a derivation
called twice on one input returns one locator. -/
theorem derivations_depend_on_identity {α β : Type} [Object α] [Object β]
    (c1 c2 : PostgresCluster) (m1 : α) (m2 : β) :
    (c1.Namespace = c2.Namespace → c1.Name = c2.Name →
      ClusterConfigMap c1 = ClusterConfigMap c2 ∧
      ClusterPodService c1 = ClusterPodService c2 ∧
      ClusterPrimaryService c1 = ClusterPrimaryService c2 ∧
      PatroniScope c1 = PatroniScope c2 ∧
      PatroniDistributedConfiguration c1 = PatroniDistributedConfiguration c2 ∧
      PatroniLeaderConfigMap c1 = PatroniLeaderConfigMap c2 ∧
      PatroniLeaderEndpoints c1 = PatroniLeaderEndpoints c2 ∧
      PatroniTrigger c1 = PatroniTrigger c2) ∧
    (Object.GetNamespace m1 = Object.GetNamespace m2 →
      Object.GetName m1 = Object.GetName m2 →
      InstanceConfigMap m1 = InstanceConfigMap m2 ∧
      InstanceCertificates m1 = InstanceCertificates m2) := by
  constructor
  · intro hns hn
    simp only [ClusterConfigMap, ClusterPodService, ClusterPrimaryService, PatroniScope,
      PatroniDistributedConfiguration, PatroniLeaderConfigMap, PatroniLeaderEndpoints,
      PatroniTrigger, hns, hn, and_self]
  · intro hns hn
    simp only [InstanceConfigMap, InstanceCertificates, hns, hn, and_self]

/-- C12 at `hippo` and `hippoLabelled`, which differ in labels, generation and
spec, and at `sampleInstance` and `sampleInstanceCluster`, an `ObjectMeta` and
a cluster with one namespace and name. -/
theorem derivations_depend_on_identity_witness :
    hippo ≠ hippoLabelled ∧
    hippo.Namespace = hippoLabelled.Namespace ∧ hippo.Name = hippoLabelled.Name ∧
    (ClusterConfigMap hippo = ClusterConfigMap hippoLabelled ∧
      ClusterPodService hippo = ClusterPodService hippoLabelled ∧
      ClusterPrimaryService hippo = ClusterPrimaryService hippoLabelled ∧
      PatroniScope hippo = PatroniScope hippoLabelled ∧
      PatroniDistributedConfiguration hippo = PatroniDistributedConfiguration hippoLabelled ∧
      PatroniLeaderConfigMap hippo = PatroniLeaderConfigMap hippoLabelled ∧
      PatroniLeaderEndpoints hippo = PatroniLeaderEndpoints hippoLabelled ∧
      PatroniTrigger hippo = PatroniTrigger hippoLabelled) ∧
    InstanceConfigMap sampleInstance = InstanceConfigMap sampleInstanceCluster ∧
    InstanceCertificates sampleInstance = InstanceCertificates sampleInstanceCluster :=
  have h := derivations_depend_on_identity hippo hippoLabelled sampleInstance
    sampleInstanceCluster
  ⟨by decide, by decide, by decide, h.1 (by decide) (by decide),
   h.2 (by decide) (by decide)⟩

/-- Appending to one string is injective. -/
theorem string_append_left_cancel {x s t : String} (h : x ++ s = x ++ t) : s = t := by
  have hd : x.data ++ s.data = x.data ++ t.data := by
    simpa using congrArg String.data h
  exact String.ext ((List.append_right_inj _).mp hd)

/-- Appending one string is injective. -/
theorem string_append_right_cancel {x y s : String} (h : x ++ s = y ++ s) : x = y := by
  have hd : x.data ++ s.data = y.data ++ s.data := by
    simpa using congrArg String.data h
  exact String.ext ((List.append_left_inj _).mp hd)

/-- C13: for one cluster and one instance set, the locators `GenerateInstance`
returns from two states of the random source lie in one namespace, their names
are one common beginning (cluster name, hyphen, set name, hyphen) followed by
the token drawn, and they are equal exactly when the two tokens are equal. -/
theorem generated_equal_iff_token (src1 src2 : RandSource) (c : PostgresCluster)
    (s : PostgresInstanceSetSpec) :
    (GenerateInstance src1 c s).1.Namespace = (GenerateInstance src2 c s).1.Namespace ∧
    (GenerateInstance src1 c s).1.Name
      = c.Name ++ "-" ++ s.Name ++ "-" ++ (randString src1 4).1 ∧
    (GenerateInstance src2 c s).1.Name
      = c.Name ++ "-" ++ s.Name ++ "-" ++ (randString src2 4).1 ∧
    ((GenerateInstance src1 c s).1 = (GenerateInstance src2 c s).1
      ↔ (randString src1 4).1 = (randString src2 4).1) := by
  refine ⟨rfl, rfl, rfl, ?_, ?_⟩
  · intro h
    exact string_append_left_cancel (congrArg ObjectMeta.Name h)
  · intro h
    simp only [GenerateInstance, h]

/-- C14: `AsObjectKey` returns the key made of the namespace and the name of
the metadata and reads nothing else: setting every other field changes
nothing; so the key of a cluster's shared ConfigMap is the cluster's namespace
with the cluster's name followed by `-config`. -/
theorem as_object_key :
    (∀ m : ObjectMeta, AsObjectKey m = { Namespace := m.Namespace, Name := m.Name }) ∧
    (∀ (m : ObjectMeta) (g u r : String) (n : Int) (ls as : List (String × String)),
      AsObjectKey { m with GenerateName := g, UID := u, ResourceVersion := r,
                           Generation := n, Labels := ls, Annotations := as }
        = AsObjectKey m) ∧
    (∀ c : PostgresCluster,
      AsObjectKey (ClusterConfigMap c)
        = { Namespace := c.Namespace, Name := c.Name ++ "-config" }) ∧
    AsObjectKey sampleInstance = { Namespace := "pgo", Name := "hippo-instance1-dkry" } :=
  ⟨fun _ => rfl, fun _ _ _ _ _ _ _ => rfl, fun _ => rfl, by decide⟩

/-! ### Byte lengths -/

/-- The byte length of a concatenation is the sum of the byte lengths. -/
theorem utf8ByteSize_append (a b : String) :
    (a ++ b).utf8ByteSize = a.utf8ByteSize + b.utf8ByteSize := by
  cases a with
  | mk as =>
    cases b with
    | mk bs =>
      show String.utf8Len (as ++ bs) = String.utf8Len as + String.utf8Len bs
      exact String.utf8Len_append as bs

/-- Every character of the token alphabet takes one byte. -/
theorem alphanums_one_byte : ∀ ch ∈ alphanums, ch.utf8Size = 1 := by
  decide

/-- A list of one-byte characters takes as many bytes as it has characters. -/
theorem utf8Len_of_one_byte (l : List Char) (h : ∀ ch ∈ l, ch.utf8Size = 1) :
    String.utf8Len l = l.length := by
  induction l with
  | nil => rfl
  | cons a as ih =>
    rw [String.utf8Len_cons, List.length_cons, h a (List.mem_cons_self a as),
      ih (fun ch hch => h ch (List.mem_cons_of_mem a hch))]

/-- A token of `n` characters takes `n` bytes. -/
theorem randString_utf8ByteSize (src : RandSource) (n : Nat) :
    (randString src n).1.utf8ByteSize = n := by
  have h := utf8Len_of_one_byte (randString src n).1.data (fun ch hch => by
    simp only [randString, List.mem_map] at hch
    obtain ⟨i, _, rfl⟩ := hch
    exact alphanums_one_byte _ (randChar_mem _))
  have hl : (randString src n).1.data.length = n := randString_length src n
  have hb : (randString src n).1.utf8ByteSize = String.utf8Len (randString src n).1.data :=
    rfl
  rw [hb, h, hl]

/-- The byte length of each of the seven suffixes is at most 12. -/
theorem clusterSuffixes_utf8ByteSize : ∀ s ∈ clusterSuffixes, s.utf8ByteSize ≤ 12 := by
  decide

/-- C15: the derivations never truncate. The byte length of each deterministic
name is that of the cluster name plus a constant: 5 for the pod Service, 7 for
the shared ConfigMap, 8 for the primary Service, 3 for the leader Endpoints, 10
for the distributed configuration and for the leader ConfigMap, 12 for the
trigger; the generated instance name, with its token of four, has the byte
length of the cluster name plus that of the set name plus 6. Hence the seven
deterministic names are all at most 63 bytes long exactly when the cluster name
is at most 51 bytes long. -/
theorem names_not_truncated (src : RandSource) (c : PostgresCluster)
    (s : PostgresInstanceSetSpec) :
    (ClusterPodService c).Name.utf8ByteSize = c.Name.utf8ByteSize + 5 ∧
    (ClusterConfigMap c).Name.utf8ByteSize = c.Name.utf8ByteSize + 7 ∧
    (ClusterPrimaryService c).Name.utf8ByteSize = c.Name.utf8ByteSize + 8 ∧
    (PatroniLeaderEndpoints c).Name.utf8ByteSize = c.Name.utf8ByteSize + 3 ∧
    (PatroniDistributedConfiguration c).Name.utf8ByteSize = c.Name.utf8ByteSize + 10 ∧
    (PatroniLeaderConfigMap c).Name.utf8ByteSize = c.Name.utf8ByteSize + 10 ∧
    (PatroniTrigger c).Name.utf8ByteSize = c.Name.utf8ByteSize + 12 ∧
    (GenerateInstance src c s).1.Name.utf8ByteSize
      = c.Name.utf8ByteSize + s.Name.utf8ByteSize + 6 ∧
    ((∀ l ∈ clusterLocators c, l.Name.utf8ByteSize ≤ maxLabelLength)
      ↔ c.Name.utf8ByteSize ≤ 51) := by
  have hT : (PatroniTrigger c).Name.utf8ByteSize = c.Name.utf8ByteSize + 12 := by
    show (c.Name ++ "-ha" ++ "-failover").utf8ByteSize = _
    rw [utf8ByteSize_append, utf8ByteSize_append]
    rfl
  refine ⟨utf8ByteSize_append _ _, utf8ByteSize_append _ _, utf8ByteSize_append _ _,
    utf8ByteSize_append _ _, ?_, ?_, hT, ?_, ?_, ?_⟩
  · show (c.Name ++ "-ha" ++ "-config").utf8ByteSize = _
    rw [utf8ByteSize_append, utf8ByteSize_append]
    rfl
  · show (c.Name ++ "-ha" ++ "-leader").utf8ByteSize = _
    rw [utf8ByteSize_append, utf8ByteSize_append]
    rfl
  · show (c.Name ++ "-" ++ s.Name ++ "-" ++ (randString src 4).1).utf8ByteSize = _
    rw [utf8ByteSize_append, utf8ByteSize_append, utf8ByteSize_append,
      utf8ByteSize_append, randString_utf8ByteSize]
    show c.Name.utf8ByteSize + 1 + s.Name.utf8ByteSize + 1 + 4 = _
    omega
  · intro h
    have h1 := h (PatroniTrigger c) (by simp [clusterLocators])
    rw [hT] at h1
    unfold maxLabelLength at h1
    omega
  · intro h l hl
    obtain ⟨t, ht, hn⟩ := clusterLocators_name hl
    have h2 := clusterSuffixes_utf8ByteSize t ht
    rw [hn, utf8ByteSize_append]
    unfold maxLabelLength
    omega

/-! ### Roles of one cluster -/

/-- The seven suffixes are pairwise different. -/
theorem clusterSuffixes_nodup : clusterSuffixes.Nodup := by
  decide

/-- The seven deterministic locators are the seven suffixes, each appended to
the cluster name, in the cluster's namespace. -/
theorem clusterLocators_eq_map (c : PostgresCluster) :
    clusterLocators c
      = clusterSuffixes.map
          (fun s => ({ Namespace := c.Namespace, Name := c.Name ++ s } : ObjectMeta)) := by
  simp [clusterLocators, clusterSuffixes, ClusterConfigMap, ClusterPodService,
    ClusterPrimaryService, PatroniDistributedConfiguration, PatroniLeaderConfigMap,
    PatroniLeaderEndpoints, PatroniTrigger, PatroniScope, String.append_assoc]

/-- C16: for one cluster the seven deterministic locators (shared ConfigMap,
pod Service, primary Service, distributed configuration, leader ConfigMap,
leader Endpoints, trigger) are pairwise different. -/
theorem cluster_locators_nodup (c : PostgresCluster) :
    (clusterLocators c).Pairwise (fun l1 l2 => l1 ≠ l2) := by
  rw [clusterLocators_eq_map]
  refine List.Nodup.map ?_ clusterSuffixes_nodup
  intro s t h
  exact string_append_left_cancel (congrArg ObjectMeta.Name h)

/-! ### Generated names against the deterministic ones -/

set_option maxRecDepth 100000 in
/-- None of the seven suffixes is at least two characters ending in a hyphen
followed by four more characters. -/
theorem clusterSuffixes_no_token :
    ∀ suf ∈ clusterSuffixes,
      ¬ (2 ≤ (suf.data.take (suf.data.length - 4)).length ∧
         (suf.data.take (suf.data.length - 4)).getLast? = some '-') := by
  decide

set_option maxRecDepth 100000 in
/-- None of the seven suffixes is at least six characters followed by
`-config` or by `-certs`. -/
theorem clusterSuffixes_no_instance :
    ∀ suf ∈ clusterSuffixes, ∀ e ∈ ["-config", "-certs"],
      suf.data.drop (suf.data.length - e.data.length) = e.data →
        (suf.data.take (suf.data.length - e.data.length)).length < 6 := by
  decide

/-- A hyphen, a set name, a hyphen and a token of four characters never make
up one of the seven suffixes. -/
theorem token_tail_ne_suffix (s t suf : String) (ht : t.length = 4)
    (hsuf : suf ∈ clusterSuffixes) : "-" ++ s ++ "-" ++ t ≠ suf := by
  intro h
  have hd : suf.data = ("-".data ++ s.data ++ "-".data) ++ t.data := by
    rw [← h]
    simp
  obtain ⟨_, htake⟩ := front_of_append hd
  have ht4 : t.data.length = 4 := ht
  rw [ht4] at htake
  apply clusterSuffixes_no_token suf hsuf
  rw [htake]
  constructor
  · simp only [List.length_append]
    show 2 ≤ 1 + s.data.length + 1
    omega
  · exact List.getLast?_concat _

/-- A hyphen, a set name, a hyphen, a token of four characters and then
`-config` or `-certs` never make up one of the seven suffixes. -/
theorem instance_tail_ne_suffix (s t e suf : String) (ht : t.length = 4)
    (he : e ∈ ["-config", "-certs"]) (hsuf : suf ∈ clusterSuffixes) :
    "-" ++ s ++ "-" ++ t ++ e ≠ suf := by
  intro h
  have hd : suf.data = ("-".data ++ s.data ++ "-".data ++ t.data) ++ e.data := by
    rw [← h]
    simp
  obtain ⟨hdrop, htake⟩ := front_of_append hd
  have hlt := clusterSuffixes_no_instance suf hsuf e he hdrop
  rw [htake] at hlt
  have ht4 : t.data.length = 4 := ht
  simp only [List.length_append, ht4] at hlt
  have h1 : "-".data.length = 1 := rfl
  rw [h1] at hlt
  omega

/-- Two strings that begin alike and end differently are different. -/
theorem ne_of_tail_ne {x a b : String} (h : a ≠ b) : x ++ a ≠ x ++ b :=
  fun heq => h (string_append_left_cancel heq)

/-- C17: the name `GenerateInstance` returns for a cluster and an instance set
(whatever the set's name, `ha` included), with its token of four characters,
differs from each of the seven deterministic names of that cluster, and so do
the names `InstanceConfigMap` and `InstanceCertificates` derive from the
generated instance. The same holds of the cluster name, the set name and any
token of exactly four characters joined by hyphens. -/
theorem generated_names_apart (src : RandSource) (c : PostgresCluster)
    (s : PostgresInstanceSetSpec) :
    (∀ l ∈ clusterLocators c,
      (GenerateInstance src c s).1.Name ≠ l.Name ∧
      (InstanceConfigMap (GenerateInstance src c s).1).Name ≠ l.Name ∧
      (InstanceCertificates (GenerateInstance src c s).1).Name ≠ l.Name) ∧
    (∀ t : String, t.length = 4 → ∀ l ∈ clusterLocators c,
      c.Name ++ "-" ++ s.Name ++ "-" ++ t ≠ l.Name ∧
      c.Name ++ "-" ++ s.Name ++ "-" ++ t ++ "-config" ≠ l.Name ∧
      c.Name ++ "-" ++ s.Name ++ "-" ++ t ++ "-certs" ≠ l.Name) := by
  have key : ∀ t : String, t.length = 4 → ∀ l ∈ clusterLocators c,
      c.Name ++ "-" ++ s.Name ++ "-" ++ t ≠ l.Name ∧
      c.Name ++ "-" ++ s.Name ++ "-" ++ t ++ "-config" ≠ l.Name ∧
      c.Name ++ "-" ++ s.Name ++ "-" ++ t ++ "-certs" ≠ l.Name := by
    intro t ht l hl
    obtain ⟨suf, hsuf, hn⟩ := clusterLocators_name hl
    rw [hn]
    refine ⟨?_, ?_, ?_⟩
    · have h := ne_of_tail_ne (token_tail_ne_suffix s.Name t suf ht hsuf) (x := c.Name)
      simpa [String.append_assoc] using h
    · have h := ne_of_tail_ne
        (instance_tail_ne_suffix s.Name t "-config" suf ht (by decide) hsuf) (x := c.Name)
      simpa [String.append_assoc] using h
    · have h := ne_of_tail_ne
        (instance_tail_ne_suffix s.Name t "-certs" suf ht (by decide) hsuf) (x := c.Name)
      simpa [String.append_assoc] using h
  exact ⟨fun l hl => key (randString src 4).1 (randString_length src 4) l hl, key⟩

/-- C17 at the cluster `hippo`, an instance set named `ha` and the token
`dkry`: the generated name `hippo-ha-dkry` and the two names derived from it
differ from the seven deterministic names of `hippo`. -/
theorem generated_names_apart_witness :
    (GenerateInstance sampleSource hippo { Name := "ha" }).1.Name = "hippo-ha-dkry" ∧
    ∀ l ∈ clusterLocators hippo,
      (GenerateInstance sampleSource hippo { Name := "ha" }).1.Name ≠ l.Name ∧
      (InstanceConfigMap (GenerateInstance sampleSource hippo { Name := "ha" }).1).Name
        ≠ l.Name ∧
      (InstanceCertificates (GenerateInstance sampleSource hippo { Name := "ha" }).1).Name
        ≠ l.Name :=
  ⟨by decide, (generated_names_apart sampleSource hippo { Name := "ha" }).1⟩

/-! ### Injectivity -/

/-- A locator made of a namespace and a name followed by a fixed suffix
determines the namespace and the name. -/
theorem locator_inj {ns1 ns2 x y s : String}
    (h : ({ Namespace := ns1, Name := x ++ s } : ObjectMeta)
      = { Namespace := ns2, Name := y ++ s }) : ns1 = ns2 ∧ x = y :=
  ⟨congrArg ObjectMeta.Namespace h,
   string_append_right_cancel (congrArg ObjectMeta.Name h)⟩

/-- C18: each deterministic derivation is injective on identities. Two
clusters that get one locator from `ClusterConfigMap`, or from
`ClusterPodService`, `ClusterPrimaryService`, `PatroniDistributedConfiguration`,
`PatroniLeaderConfigMap`, `PatroniLeaderEndpoints` or `PatroniTrigger`, have
one namespace and one name; two clusters with one Patroni scope have one name;
two instances that get one locator from `InstanceConfigMap`, or from
`InstanceCertificates`, have one namespace and one name. -/
theorem derivations_injective {α β : Type} [Object α] [Object β]
    (c1 c2 : PostgresCluster) (m1 : α) (m2 : β) :
    (ClusterConfigMap c1 = ClusterConfigMap c2 →
      c1.Namespace = c2.Namespace ∧ c1.Name = c2.Name) ∧
    (ClusterPodService c1 = ClusterPodService c2 →
      c1.Namespace = c2.Namespace ∧ c1.Name = c2.Name) ∧
    (ClusterPrimaryService c1 = ClusterPrimaryService c2 →
      c1.Namespace = c2.Namespace ∧ c1.Name = c2.Name) ∧
    (PatroniDistributedConfiguration c1 = PatroniDistributedConfiguration c2 →
      c1.Namespace = c2.Namespace ∧ c1.Name = c2.Name) ∧
    (PatroniLeaderConfigMap c1 = PatroniLeaderConfigMap c2 →
      c1.Namespace = c2.Namespace ∧ c1.Name = c2.Name) ∧
    (PatroniLeaderEndpoints c1 = PatroniLeaderEndpoints c2 →
      c1.Namespace = c2.Namespace ∧ c1.Name = c2.Name) ∧
    (PatroniTrigger c1 = PatroniTrigger c2 →
      c1.Namespace = c2.Namespace ∧ c1.Name = c2.Name) ∧
    (PatroniScope c1 = PatroniScope c2 → c1.Name = c2.Name) ∧
    (InstanceConfigMap m1 = InstanceConfigMap m2 →
      Object.GetNamespace m1 = Object.GetNamespace m2 ∧
      Object.GetName m1 = Object.GetName m2) ∧
    (InstanceCertificates m1 = InstanceCertificates m2 →
      Object.GetNamespace m1 = Object.GetNamespace m2 ∧
      Object.GetName m1 = Object.GetName m2) := by
  have viaScope : ∀ {s : String},
      ({ Namespace := c1.Namespace, Name := PatroniScope c1 ++ s } : ObjectMeta)
        = { Namespace := c2.Namespace, Name := PatroniScope c2 ++ s } →
      c1.Namespace = c2.Namespace ∧ c1.Name = c2.Name := fun h =>
    ⟨(locator_inj h).1, string_append_right_cancel (locator_inj h).2⟩
  refine ⟨locator_inj, locator_inj, locator_inj, viaScope, viaScope, ?_, viaScope,
    string_append_right_cancel, locator_inj, locator_inj⟩
  intro h
  have hns : (PatroniLeaderEndpoints c1).Namespace = (PatroniLeaderEndpoints c2).Namespace :=
    by rw [h]
  have hn : (PatroniLeaderEndpoints c1).Name = (PatroniLeaderEndpoints c2).Name := by rw [h]
  exact ⟨hns, string_append_right_cancel hn⟩

/-- C18 at `hippo` and `hippoLabelled`, two different clusters that get one
locator from each derivation, and at `sampleInstance` and
`sampleInstanceCluster`. -/
theorem derivations_injective_witness :
    hippo ≠ hippoLabelled ∧
    ClusterConfigMap hippo = ClusterConfigMap hippoLabelled ∧
    PatroniTrigger hippo = PatroniTrigger hippoLabelled ∧
    InstanceCertificates sampleInstance = InstanceCertificates sampleInstanceCluster ∧
    (hippo.Namespace = hippoLabelled.Namespace ∧ hippo.Name = hippoLabelled.Name) ∧
    (hippo.Namespace = hippoLabelled.Namespace ∧ hippo.Name = hippoLabelled.Name) ∧
    (Object.GetNamespace sampleInstance = Object.GetNamespace sampleInstanceCluster ∧
      Object.GetName sampleInstance = Object.GetName sampleInstanceCluster) :=
  have h := derivations_injective hippo hippoLabelled sampleInstance sampleInstanceCluster
  ⟨by decide, by decide, by decide, by decide, h.1 (by decide),
   h.2.2.2.2.2.2.1 (by decide), h.2.2.2.2.2.2.2.2.2 (by decide)⟩

end naming
